import Mathlib

/-!
# Shallow embedding of the PyFFTPlayground scripts

This file embeds, in Lean 4, the Python modules of the `PyFFTPlayground`
repository (`Timer.py`, `DFT.py`, `PyFFTParallel.py`,
`ScipyBackendsTutorial.py` and the other driver scripts) and proves or
refutes the specification claims about them.

Modelling conventions:
* numpy arrays are tracked at the level of shape and dtype (`NDArray`);
  their numeric content is owned by the external FFT library and is not
  part of any claim about this repository except the division step of
  `dummy_psf_broadband`, which is embedded value-wise over `ℚ`;
* Python exceptions are values of `PyError`; a Python function that can
  raise is embedded as a function into `Except PyError _`;
* wall-clock readings of `time.perf_counter` are inputs of type `ℚ`
  supplied to the embedded `Timer` operations;
* Python runtime attribute lookup and calls on instances of the `DFT`
  wrapper class are embedded by functions that follow Python semantics
  for a class whose instances carry the single attribute `plan` and
  whose class body defines no `__call__`.
-/

namespace PyFFTPlayground

/-- Python exception values raised by the embedded code.
`timerError` is the repository's own `TimerError`; the others are the
Python builtins that the embedded code can raise. -/
inductive PyError : Type where
  | timerError (msg : String)
  | typeError (msg : String)
  | valueError (msg : String)
  | attributeError (msg : String)
  | nameError (msg : String)
deriving DecidableEq, Repr

/-- numpy dtypes used by the repository. -/
inductive DType : Type where
  | float64
  | complex128
deriving DecidableEq, Repr

/-- A numpy array tracked at the level of its 2-D shape and dtype. -/
structure NDArray : Type where
  shape : ℕ × ℕ
  dtype : DType
deriving DecidableEq, Repr

/-- `pyfftw.empty_aligned(shape, dtype)`: allocates a buffer of the given
shape and dtype. -/
def empty_aligned (shape : ℕ × ℕ) (dtype : DType) : NDArray :=
  ⟨shape, dtype⟩

/-- `np.zeros(shape, dtype)`: same shape/dtype tracking as `empty_aligned`. -/
def np_zeros (shape : ℕ × ℕ) (dtype : DType) : NDArray :=
  ⟨shape, dtype⟩

/-- FFTW transform directions appearing in `DFT.py`. -/
inductive Direction : Type where
  | fftw_forward
  | fftw_backward
deriving DecidableEq, Repr

/-- A `pyfftw.FFTW` plan object: it owns its pre-allocated input and
output buffers, a direction and the planner flags it was built with. -/
structure FFTW : Type where
  input_array : NDArray
  output_array : NDArray
  direction : Direction
  flags : List String
deriving DecidableEq, Repr

/-- Executing a `pyfftw.FFTW` plan on an input array: the transform itself
is owned by the external library; at the shape level the call returns the
plan's output buffer. -/
def FFTW.call (p : FFTW) (_input_array : NDArray) : NDArray :=
  p.output_array

/-! ## DFT.py -/

/-- The `DFT` class of `DFT.py`: a very light wrapper around
`pyfftw.FFTW`.  Its `__init__` stores the plan as the single instance
attribute `plan`; the class body defines nothing else (no `__call__`,
no forwarding of attribute lookups). -/
structure DFT : Type where
  plan : FFTW
deriving DecidableEq, Repr

/-- The instance attributes of a constructed `DFT` object: `__init__`
assigns only `self.plan`. -/
def DFT.attrNames (_ : DFT) : List String := ["plan"]

/-- Python attribute lookup `d.plan` on a `DFT` instance: the attribute
exists, so the lookup returns the wrapped `pyfftw.FFTW` plan. -/
def DFT.getattr_plan (d : DFT) : Except PyError FFTW :=
  .ok d.plan

/-- Python attribute lookup `d.input_array` on a `DFT` instance: neither
the instance dictionary nor the class defines `input_array`, so the
lookup raises `AttributeError`; in particular it is not forwarded to the
wrapped plan. -/
def DFT.getattr_input_array (_ : DFT) : Except PyError NDArray :=
  .error (.attributeError "DFT object has no attribute input_array")

/-- Python attribute lookup `d.output_array` on a `DFT` instance: neither
the instance dictionary nor the class defines `output_array`, so the
lookup raises `AttributeError`. -/
def DFT.getattr_output_array (_ : DFT) : Except PyError NDArray :=
  .error (.attributeError "DFT object has no attribute output_array")

/-- Python call `d(input_array=...)` on a `DFT` instance: the class
defines no `__call__`, so the call raises `TypeError`; in particular it
is not forwarded to the wrapped plan. -/
def DFT.call (_ : DFT) (_input_array : NDArray) : Except PyError NDArray :=
  .error (.typeError "DFT object is not callable")

/-- `create_complex_plan(shape, flags)` from `DFT.py`: complex input and
output buffers of the given shape, backward (inverse) transform. -/
def create_complex_plan (shape : ℕ × ℕ) (flags : List String) : DFT :=
  let i := empty_aligned shape .complex128
  let o := empty_aligned shape .complex128
  ⟨⟨i, o, .fftw_backward, flags⟩⟩

/-- `create_real_plan(shape, flags)` from `DFT.py`: real input buffer of
the given shape, complex output buffer of shape
`(shape[0], shape[-1] // 2 + 1)`, forward transform. -/
def create_real_plan (shape : ℕ × ℕ) (flags : List String) : DFT :=
  let i := empty_aligned shape .float64
  let output_shape := (i.shape.1, i.shape.2 / 2 + 1)
  let o := empty_aligned output_shape .complex128
  ⟨⟨i, o, .fftw_forward, flags⟩⟩

/-- `create_real_plan_backward(shape, flags)` from `DFT.py`: same two
buffers as `create_real_plan`, but the `pyfftw.FFTW` plan is built as
`FFTW(o, i, ...)`, i.e. the complex buffer is the plan's input and the
real buffer its output, with the backward direction. -/
def create_real_plan_backward (shape : ℕ × ℕ) (flags : List String) : DFT :=
  let i := empty_aligned shape .float64
  let output_shape := (i.shape.1, i.shape.2 / 2 + 1)
  let o := empty_aligned output_shape .complex128
  ⟨⟨o, i, .fftw_backward, flags⟩⟩

/-! ## Timer.py -/

/-- The `Timer` dataclass of `Timer.py`: fields `_start_time` (default
`None`), `incs` (default empty list) and `elapsed_time` (default `0`).
Durations, produced from `time.perf_counter` readings, are modelled as
rationals. -/
structure Timer : Type where
  _start_time : Option ℚ
  incs : List ℚ
  elapsed_time : ℚ
deriving DecidableEq, Repr

/-- `Timer()`: the dataclass defaults. -/
def Timer.init : Timer :=
  ⟨none, [], 0⟩

/-- The parameter names of the dataclass-generated `Timer.__init__`,
one per declared field. -/
def Timer.initParams : List String :=
  ["_start_time", "incs", "elapsed_time"]

/-- Keyword binding of the dataclass-generated `Timer.__init__`: Python
checks every keyword name against the parameter list and raises
`TypeError` when one is unexpected, before any field assignment.  The
result only records acceptance; an accepted call with no keywords is
`Timer.init`.  `α` is the type of the passed values: the name check does
not look at them. -/
def Timer.initKw {α : Type} (kwargs : List (String × α)) : Except PyError Unit :=
  if kwargs.all (fun kv => Timer.initParams.contains kv.1) then
    .ok ()
  else
    .error (.typeError "Timer.__init__ got an unexpected keyword argument")

/-- `Timer.start(self)` at a `time.perf_counter` reading `now`: raises
`TimerError` when `_start_time is not None`, otherwise records `now`. -/
def Timer.start (t : Timer) (now : ℚ) : Except PyError Timer :=
  match t._start_time with
  | some _ => .error (.timerError "Timer is running. Use .stop() to stop it")
  | none => .ok { t with _start_time := some now }

/-- `Timer.stop(self)` at a `time.perf_counter` reading `now`: raises
`TimerError` when `_start_time is None`; otherwise computes the increment
in milliseconds, adds it to `elapsed_time`, appends it to `incs`, clears
`_start_time` and returns the increment together with the new state. -/
def Timer.stop (t : Timer) (now : ℚ) : Except PyError (ℚ × Timer) :=
  match t._start_time with
  | none => .error (.timerError "Timer is not running. Use .start() to start it")
  | some s =>
    let inc := (now - s) * 1000
    .ok (inc, { _start_time := none,
                incs := t.incs ++ [inc],
                elapsed_time := t.elapsed_time + inc })

/-- One client-visible `Timer` operation, paired with the
`time.perf_counter` reading observed when it runs. -/
inductive TimerOp : Type where
  | startOp (now : ℚ)
  | stopOp (now : ℚ)
deriving DecidableEq, Repr

/-- Run a sequence of `start`/`stop` calls on a timer; the first raised
`TimerError` aborts the run. -/
def Timer.run (t : Timer) : List TimerOp → Except PyError Timer
  | [] => .ok t
  | .startOp now :: rest => (t.start now).bind fun t2 => t2.run rest
  | .stopOp now :: rest => (t.stop now).bind fun p => p.2.run rest

/-! ## PyFFTParallel.py -/

/-- The `BranchDFTs` class of `PyFFTParallel.py`: three `DFT` plans
(pupil to PSF, PSF to MTF, MTF to broadband) and a `Timer`. -/
structure BranchDFTs : Type where
  pupil_to_psf : DFT
  psf_to_mtf : DFT
  mtf_to_broadband : DFT
  chrono : Timer
deriving DecidableEq, Repr

/-- `BranchDFTs(mask_side, psf_side, flags)`: the constructor of
`PyFFTParallel.py`. -/
def BranchDFTs.init (mask_side psf_side : ℕ) (flags : List String) : BranchDFTs :=
  { pupil_to_psf := create_complex_plan (mask_side, mask_side) flags
    psf_to_mtf := create_real_plan (mask_side, mask_side) flags
    mtf_to_broadband := create_real_plan_backward (psf_side, psf_side) flags
    chrono := Timer.init }

/-- `gen_rand_comp_array(sizex, sizey)`: a random complex array of shape
`(sizex, sizey)`; the random content is owned by numpy, the shape and
dtype are deterministic. -/
def gen_rand_comp_array (sizex sizey : ℕ) : NDArray :=
  ⟨(sizex, sizey), .complex128⟩

/-- Elementwise product of same-shaped arrays (`psf_mono *= wfe`): shape
of the left operand, complex dtype. -/
def NDArray.mulElem (a _b : NDArray) : NDArray :=
  ⟨a.shape, .complex128⟩

/-- `np.abs` of a complex array: same shape, real dtype. -/
def NDArray.absElem (a : NDArray) : NDArray :=
  ⟨a.shape, .float64⟩

/-- Elementwise accumulation `mtf_broad_sum += mtf`: shape of the
accumulator. -/
def NDArray.addElem (a _b : NDArray) : NDArray :=
  a

/-- `mtf_broad_sum /= lambdas`: elementwise division by the scalar
`lambdas`; shape and dtype unchanged. -/
def NDArray.divScalar (a : NDArray) (_lambdas : ℕ) : NDArray :=
  a

/-- Slicing `a[: s.1, : s.2]`: numpy clamps each stop index to the axis
length. -/
def NDArray.sliceTo (a : NDArray) (s : ℕ × ℕ) : NDArray :=
  ⟨(min a.shape.1 s.1, min a.shape.2 s.2), a.dtype⟩

/-- The loop body of `dummy_psf_broadband` for one wavelength `l`:
`psf_mono = dft_pupil_to_psf(input_array=pupil)`, the elementwise
multiply/abs, `mtf = psf_to_mtf(input_array=abs_psf_mono)` and the
accumulation into `mtf_broad_sum`.  Both transform calls are Python
calls on `DFT` instances. -/
def psfLoopBody (dft_pupil_to_psf psf_to_mtf : DFT) (pupil : NDArray)
    (_l : ℕ) (mtf_broad_sum : NDArray) : Except PyError NDArray := do
  let psf_mono ← dft_pupil_to_psf.call pupil
  let wfe := (gen_rand_comp_array psf_mono.shape.1 psf_mono.shape.2).mulElem
    ⟨psf_mono.shape, .complex128⟩
  let psf_mono := psf_mono.mulElem wfe
  let abs_psf_mono := psf_mono.absElem
  let mtf ← psf_to_mtf.call abs_psf_mono
  return mtf_broad_sum.addElem mtf

/-- Fold of the `for l in range(lambdas)` loop of `dummy_psf_broadband`. -/
def psfLoop (dft_pupil_to_psf psf_to_mtf : DFT) (pupil : NDArray) :
    List ℕ → NDArray → Except PyError NDArray
  | [], acc => .ok acc
  | l :: rest, acc =>
    (psfLoopBody dft_pupil_to_psf psf_to_mtf pupil l acc).bind fun acc2 =>
      psfLoop dft_pupil_to_psf psf_to_mtf pupil rest acc2

/-- `dummy_psf_broadband(pupil, mask_side, psf_side, lambdas, wisdom,
flags, param)` of `PyFFTParallel.py`, embedded statement by statement.
`t0` and `t1` are the `time.perf_counter` readings of the enclosing
`chrono.start()` and `chrono.stop()` calls.  The function first builds a
`BranchDFTs` with the flags extended by `FFTW_WISDOM_ONLY`, starts the
chronometer, reads `psf_to_mtf.output_array` to size the accumulator,
runs the wavelength loop, divides the accumulated sum by `lambdas`,
slices it to `mtf_to_broadband.input_array.shape`, applies the final
inverse transform, stops the chronometer and returns the broadband
array with the chronometer. -/
def dummy_psf_broadband (pupil : NDArray) (mask_side psf_side lambdas : ℕ)
    (_wisdom : List String) (flags : List String) (_param : ℕ)
    (t0 t1 : ℚ) : Except PyError (NDArray × Timer) := do
  let wisdom_flag := flags ++ ["FFTW_WISDOM_ONLY"]
  let plan := BranchDFTs.init mask_side psf_side wisdom_flag
  let dft_pupil_to_psf := plan.pupil_to_psf
  let psf_to_mtf := plan.psf_to_mtf
  let mtf_to_broadband := plan.mtf_to_broadband
  let chrono := plan.chrono
  let chrono ← chrono.start t0
  let mtfOut ← psf_to_mtf.getattr_output_array
  let mtf_shape := mtfOut.shape
  let mtf_dtype := mtfOut.dtype
  let mtf_broad_sum := np_zeros mtf_shape mtf_dtype
  let mtf_broad_sum ←
    psfLoop dft_pupil_to_psf psf_to_mtf pupil (List.range lambdas) mtf_broad_sum
  let mtf_broad_sum := mtf_broad_sum.divScalar lambdas
  let bbIn ← mtf_to_broadband.getattr_input_array
  let broadband_shape := bbIn.shape
  let mtf_broad_sum := mtf_broad_sum.sliceTo broadband_shape
  let broadband ← mtf_to_broadband.call mtf_broad_sum
  let (_inc, chrono) ← chrono.stop t1
  return (broadband, chrono)

/-- The generic OK exit code: `ElementsKernel.Exit.Code["OK"]`, the
success status returned by the Elements framework, numerically 0. -/
def exitCodeOK : ℤ := 0

/-- `PyFFTParallel.mainMethod(args)`, embedded statement by statement.
`ta0, ta1, tb0, tb1` are the `time.perf_counter` readings of the two
`main_chrono.start()`/`main_chrono.stop()` pairs and `wt` gives the two
readings of each worker's chronometer.  Logging has no effect on the
result; `pyfftw.export_wisdom()` is owned by the external library and is
modelled as an opaque empty wisdom tuple.  `pool.map` applies
`dummy_psf_broadband` to every element of `range(params)` and re-raises
the first worker exception in the parent. -/
def pyFFTParallel_mainMethod (flags : List String)
    (_branches params lambdas mask_side psf_side : ℕ) (_printFlag : Bool)
    (ta0 ta1 tb0 tb1 : ℚ) (wt : ℕ → ℚ × ℚ) : Except PyError ℤ := do
  let main_chrono := Timer.init
  let main_chrono ← main_chrono.start ta0
  let _plans := BranchDFTs.init mask_side psf_side flags
  let wisdom : List String := []
  let (_inc, main_chrono) ← main_chrono.stop ta1
  let main_chrono ← main_chrono.start tb0
  let pupil := gen_rand_comp_array mask_side mask_side
  let param_list := List.range params
  let _results ← param_list.mapM fun x =>
    dummy_psf_broadband pupil mask_side psf_side lambdas wisdom flags x
      (wt x).1 (wt x).2
  let (_inc2, _main_chrono) ← main_chrono.stop tb1
  return exitCodeOK

/-- The value-level content of the statement `mtf_broad_sum /= lambdas`
in `dummy_psf_broadband`: numpy elementwise true division of each array
entry by the scalar `lambdas`, applied unconditionally (the source has
no guard on `lambdas`).  Entries (real and imaginary parts) are listed
as rationals. -/
def mtf_broad_sum_entries_div (entries : List ℚ) (lambdas : ℕ) : List ℚ :=
  entries.map fun x => x / (lambdas : ℚ)

/-! ## ScipyBackendsTutorial.py and the other tutorial entry points -/

/-- Outcome of running a script entry point: a returned exit code or an
uncaught Python exception. -/
inductive RunOutcome : Type where
  | returns (code : ℤ)
  | raises (e : PyError)
deriving DecidableEq, Repr

/-- Observable effects of one run of `ScipyBackendsTutorial.mainMethod`:
its outcome, whether `fits.open` was executed, and how many transform or
convolution calls ran. -/
structure TutorialTrace : Type where
  outcome : RunOutcome
  fileOpened : Bool
  transformsExecuted : ℕ
deriving DecidableEq, Repr

/-- The computation section of `ScipyBackendsTutorial.mainMethod` once a
backend is installed: `fits.open(input_file)`, one `fft2` per HDU, one
`fftconvolve` per HDU after the first, one `ifft2` per HDU, then
`return 0`.  The transforms themselves are owned by the external
backend; the trace records that the file was opened and how many calls
ran. -/
def scipyBackendsPipeline (hduCount : ℕ) : TutorialTrace :=
  ⟨.returns 0, true, hduCount + (hduCount - 1) + hduCount⟩

/-- `ScipyBackendsTutorial.mainMethod(args)`, embedded statement by
statement.  After the logger banner, the first effectful statement is
`t = Timer(logger=logger.info)`; only if that construction succeeds is
the backend string dispatched through the `if`/`elif` chain, with
`raise ValueError(...)` in the final `else`; only a supported backend
reaches the file-opening and transform section. -/
def scipyBackendsTutorial_mainMethod (_input backend : String)
    (hduCount : ℕ) : TutorialTrace :=
  match Timer.initKw [("logger", "logger.info")] with
  | .error e => ⟨.raises e, false, 0⟩
  | .ok _ =>
    if backend = "scipy" then
      scipyBackendsPipeline hduCount
    else if backend = "numpy" then
      scipyBackendsPipeline hduCount
    else if backend = "pyfftw" then
      scipyBackendsPipeline hduCount
    else
      ⟨.raises (.valueError
          "Supported backends are scipy,numpy and pyfftw if pyfftw is available"),
        false, 0⟩

/-- `PyFFTWPlayground.mainMethod(args)`: after the logger banner, the
first effectful statement is `t = Timer(logger=logger.info)`; the
remainder (opening the file, the pyfftw-backed transforms and the
convolution, `return 0`) runs only if that construction succeeds. -/
def pyFFTWPlayground_mainMethod (_input : String) : RunOutcome :=
  match Timer.initKw [("logger", "logger.info")] with
  | .error e => .raises e
  | .ok _ => .returns 0

/-- `PyFFTPlaygroundTutorial.mainMethod(args)`: starts with
`t = Timer(logger=logger.info)` like the other tutorials; if that
construction succeeded, the pipeline would end at
`return Exit.Code["OK"]`, where the name `Exit` is not imported in that
module, so the return statement itself raises `NameError`. -/
def pyFFTPlaygroundTutorial_mainMethod (_input : String) : RunOutcome :=
  match Timer.initKw [("logger", "logger.info")] with
  | .error e => .raises e
  | .ok _ => .raises (.nameError "name Exit is not defined")

/-! ## Codebase censuses -/

/-- Every `class` statement of the repository with the base class it
declares, transcribed from the source files: `TimerError(Exception)` and
`Timer` in `Timer.py`, `DFT` in `DFT.py`, `BranchDFTs` in
`PyFFTParallel.py`, and the two placeholder test classes. -/
def classDefs : List (String × Option String) :=
  [("TimerError", some "Exception"),
   ("Timer", none),
   ("DFT", none),
   ("BranchDFTs", none),
   ("TestTimer", some "object"),
   ("TestScipy", some "object")]

/-- The custom exception types of the codebase: the classes whose base
class is `Exception`. -/
def customExceptionTypes : List String :=
  (classDefs.filter fun c => c.2 = some "Exception").map Prod.fst

/-- The exit codes appearing in (or implied by) the return statements of
each script entry point, transcribed from the source: `PyFFTParallel`
and `PyFFTPlaygroundTutorial` return `Exit.Code["OK"]` (0),
`ScipyBackendsTutorial` and `PyFFTWPlayground` return the literal 0, and
`LearnParallel.main` and the two bench scripts fall off the end (exit
status 0).  No return statement carries any other code. -/
def scriptReturnCodes : List (String × List ℤ) :=
  [("PyFFTParallel.mainMethod", [exitCodeOK]),
   ("ScipyBackendsTutorial.mainMethod", [0]),
   ("PyFFTWPlayground.mainMethod", [0]),
   ("PyFFTPlaygroundTutorial.mainMethod", [exitCodeOK]),
   ("LearnParallel.main", [0]),
   ("bench_pyfftw_rfft2.main", [0]),
   ("bench_pyfftw_convolution", [0])]

/-- The spec's exit-code sentence as stated: every recorded return code
is the generic OK code, and additionally some script returns a distinct
usage-error code for unsupported parameter combinations. -/
def exitCodeClaim : Prop :=
  (∀ p ∈ scriptReturnCodes, ∀ c ∈ p.2, c = exitCodeOK) ∧
  (∃ p ∈ scriptReturnCodes, ∃ c ∈ p.2, c ≠ exitCodeOK)

/-! ## Helper lemmas -/

/-- A successful `Except` bind factors through a successful first step. -/
theorem except_bind_ok {ε α β : Type} {x : Except ε α} {k : α → Except ε β}
    {b : β} (h : Bind.bind x k = Except.ok b) :
    ∃ a, x = Except.ok a ∧ k a = Except.ok b := by
  cases x with
  | error e => exact Except.noConfusion h
  | ok a => exact ⟨a, rfl, h⟩

/-- Runs of `Timer` operations preserve the invariant that the elapsed
time is the sum of the recorded increments. -/
theorem timer_run_sum_aux (ops : List TimerOp) :
    ∀ t0 t : Timer, t0.elapsed_time = t0.incs.sum →
      t0.run ops = Except.ok t → t.elapsed_time = t.incs.sum := by
  induction ops with
  | nil =>
    intro t0 t h hrun
    simp only [Timer.run] at hrun
    cases hrun
    exact h
  | cons op rest ih =>
    intro t0 t h hrun
    cases op with
    | startOp now =>
      cases hs : t0._start_time with
      | some s => simp [Timer.run, Timer.start, hs, Except.bind] at hrun
      | none =>
        simp only [Timer.run, Timer.start, hs, Except.bind] at hrun
        exact ih { t0 with _start_time := some now } t h hrun
    | stopOp now =>
      cases hs : t0._start_time with
      | none => simp [Timer.run, Timer.stop, hs, Except.bind] at hrun
      | some s =>
        simp only [Timer.run, Timer.stop, hs, Except.bind] at hrun
        refine ih _ t ?_ hrun
        simp [h, List.sum_append]

/-! ## The claims -/

/-- C1: the spec asserts that `dummy_psf_broadband` returns a pair whose
first component has shape `(psf_side, psf_side)`; on the failing input
`mask_side = 4`, `psf_side = 2`, `lambdas = 1` the function instead
raises `AttributeError` at the statement
`mtf_shape = psf_to_mtf.output_array.shape`, because `psf_to_mtf` is a
`DFT` wrapper whose only attribute is `plan`. -/
theorem dummy_psf_broadband_attribute_error :
    dummy_psf_broadband (gen_rand_comp_array 4 4) 4 2 1 [] ["FFTW_MEASURE"] 0 0 1 =
      Except.error (PyError.attributeError
        "DFT object has no attribute output_array") :=
  rfl

/-- C2: `Timer.start` raises `TimerError` exactly when the timer is
already running and succeeds exactly when it is idle; `Timer.stop`
raises `TimerError` exactly when the timer is idle and succeeds exactly
when it is running; and `TimerError` is the only class of the codebase
deriving `Exception`. -/
theorem timer_error_iff_misuse :
    (∀ (t : Timer) (now : ℚ),
        ((∃ msg, t.start now = Except.error (PyError.timerError msg)) ↔
          t._start_time ≠ none) ∧
        ((∃ t2, t.start now = Except.ok t2) ↔ t._start_time = none)) ∧
    (∀ (t : Timer) (now : ℚ),
        ((∃ msg, t.stop now = Except.error (PyError.timerError msg)) ↔
          t._start_time = none) ∧
        ((∃ r, t.stop now = Except.ok r) ↔ t._start_time ≠ none)) ∧
    customExceptionTypes = ["TimerError"] := by
  refine ⟨?_, ?_, rfl⟩ <;> intro t now <;> cases hs : t._start_time <;>
    simp [Timer.start, Timer.stop, hs]

/-- C3: a fresh `Timer` has `elapsed_time` 0 and empty `incs`; each
successful `stop` appends exactly one increment to `incs`, returns it
and increases `elapsed_time` by exactly that increment; and after every
successful sequence of `start`/`stop` calls starting from a fresh timer,
`elapsed_time` equals the sum of the entries of `incs`. -/
theorem timer_elapsed_eq_sum_incs :
    (Timer.init.elapsed_time = 0 ∧ Timer.init.incs = []) ∧
    (∀ (t : Timer) (now inc : ℚ) (t2 : Timer),
        t.stop now = Except.ok (inc, t2) →
          t2.incs = t.incs ++ [inc] ∧
          t2.elapsed_time = t.elapsed_time + inc) ∧
    (∀ (ops : List TimerOp) (t : Timer),
        Timer.init.run ops = Except.ok t →
          t.elapsed_time = t.incs.sum) := by
  refine ⟨⟨rfl, rfl⟩, ?_, ?_⟩
  · intro t now inc t2 hstop
    cases hs : t._start_time with
    | none => simp [Timer.stop, hs] at hstop
    | some s =>
      simp only [Timer.stop, hs, Except.ok.injEq, Prod.mk.injEq] at hstop
      obtain ⟨hinc, ht2⟩ := hstop
      subst hinc
      subst ht2
      exact ⟨rfl, rfl⟩
  · intro ops t hrun
    exact timer_run_sum_aux ops Timer.init t rfl hrun

/-- Witness for C3: the trace start-at-0, stop-at-1 succeeds, produces
the timer with a single increment of 1000 milliseconds, and the
invariant holds on that concrete final state. -/
theorem timer_elapsed_eq_sum_incs_witness :
    Timer.init.run [TimerOp.startOp 0, TimerOp.stopOp 1] =
      Except.ok (⟨none, [1000], 1000⟩ : Timer) ∧
    (⟨none, [1000], 1000⟩ : Timer).elapsed_time =
      (⟨none, [1000], 1000⟩ : Timer).incs.sum := by
  have hrun : Timer.init.run [TimerOp.startOp 0, TimerOp.stopOp 1] =
      Except.ok (⟨none, [1000], 1000⟩ : Timer) := by
    norm_num [Timer.run, Timer.start, Timer.stop, Timer.init, Except.bind]
  exact ⟨hrun, timer_elapsed_eq_sum_incs.2.2 [TimerOp.startOp 0, TimerOp.stopOp 1]
    ⟨none, [1000], 1000⟩ hrun⟩

/-- C4: for every 2-D shape `(n0, n1)` and flag tuple, `create_real_plan`
and `create_real_plan_backward` allocate a `float64` buffer of shape
`(n0, n1)` and a `complex128` buffer of shape `(n0, n1 / 2 + 1)`: the
complex-side length along the transformed (last) axis equals the
real-side length divided by two plus one. -/
theorem plan_buffer_real_complex_shapes (n0 n1 : ℕ) (flags : List String) :
    ((create_real_plan (n0, n1) flags).plan.input_array =
        ⟨(n0, n1), DType.float64⟩ ∧
      (create_real_plan (n0, n1) flags).plan.output_array =
        ⟨(n0, n1 / 2 + 1), DType.complex128⟩) ∧
    ((create_real_plan_backward (n0, n1) flags).plan.output_array =
        ⟨(n0, n1), DType.float64⟩ ∧
      (create_real_plan_backward (n0, n1) flags).plan.input_array =
        ⟨(n0, n1 / 2 + 1), DType.complex128⟩) :=
  ⟨⟨rfl, rfl⟩, ⟨rfl, rfl⟩⟩

/-- C5: the spec asserts that an unsupported backend string makes
`ScipyBackendsTutorial.mainMethod` raise a `ValueError` before any
computation; on the failing input backend = "fftpack" the run instead
raises `TypeError` at the earlier statement
`t = Timer(logger=logger.info)`, before the backend string is even
examined — the file is indeed not opened and no transform runs, but the
`ValueError` branch is unreachable. -/
theorem scipy_backends_unsupported_backend_outcome :
    scipyBackendsTutorial_mainMethod "image.fits" "fftpack" 3 =
      ⟨RunOutcome.raises (PyError.typeError
          "Timer.__init__ got an unexpected keyword argument"),
        false, 0⟩ :=
  rfl

/-- C6 counterexample: the exit-code sentence of the spec is false of the
code: no script entry point carries any return code other than the
generic OK code, so no script returns a distinct usage-error code. -/
theorem exit_code_claim_false : ¬ exitCodeClaim := fun h =>
  have hall : ∀ p ∈ scriptReturnCodes, ∀ c ∈ p.2, c = exitCodeOK := by decide
  match h.2 with
  | ⟨p, hp, c, hc, hne⟩ => hne (hall p hp c hc)

/-- C6 amended: every exit code carried by a script entry point's return
statements is the generic OK code, and `PyFFTParallel.mainMethod` in
particular returns the OK code whenever it returns at all; no script
returns a usage-error exit code. -/
theorem exit_codes_all_ok :
    (∀ p ∈ scriptReturnCodes, ∀ c ∈ p.2, c = exitCodeOK) ∧
    (∀ (flags : List String) (branches params lambdas mask_side psf_side : ℕ)
        (pf : Bool) (ta0 ta1 tb0 tb1 : ℚ) (wt : ℕ → ℚ × ℚ) (c : ℤ),
        pyFFTParallel_mainMethod flags branches params lambdas mask_side
            psf_side pf ta0 ta1 tb0 tb1 wt = Except.ok c →
          c = exitCodeOK) := by
  constructor
  · decide
  · intro flags branches params lambdas mask_side psf_side pf ta0 ta1 tb0 tb1 wt c h
    unfold pyFFTParallel_mainMethod at h
    obtain ⟨a1, h1, h⟩ := except_bind_ok h
    obtain ⟨a2, h2, h⟩ := except_bind_ok h
    obtain ⟨i2, tmr2⟩ := a2
    obtain ⟨a3, h3, h⟩ := except_bind_ok h
    obtain ⟨a4, h4, h⟩ := except_bind_ok h
    obtain ⟨a5, h5, h⟩ := except_bind_ok h
    obtain ⟨i5, tmr5⟩ := a5
    cases h
    rfl

/-- Witness for C6 amended: the census hypothesis holds at the
`PyFFTParallel` entry, and a concrete run of `pyFFTParallel_mainMethod`
with zero parameters completes and returns the OK code. -/
theorem exit_codes_all_ok_witness :
    (("PyFFTParallel.mainMethod", ([exitCodeOK] : List ℤ)) ∈ scriptReturnCodes ∧
      exitCodeOK ∈ ([exitCodeOK] : List ℤ) ∧ exitCodeOK = exitCodeOK) ∧
    (pyFFTParallel_mainMethod ["FFTW_MEASURE"] 1 0 1 4 2 false 0 1 2 3
        (fun _ => (0, 1)) = Except.ok exitCodeOK ∧ exitCodeOK = exitCodeOK) :=
  ⟨⟨by decide, by decide,
      exit_codes_all_ok.1 ("PyFFTParallel.mainMethod", [exitCodeOK]) (by decide)
        exitCodeOK (by decide)⟩,
    ⟨rfl, exit_codes_all_ok.2 ["FFTW_MEASURE"] 1 0 1 4 2 false 0 1 2 3
        (fun _ => (0, 1)) exitCodeOK rfl⟩⟩

/-- C7: the spec asserts that `dummy_psf_broadband` runs `lambdas`
iterations of pupil-to-PSF and PSF-to-MTF transforms followed by one
MTF-to-broadband transform while accumulating timing; for every value of
`lambdas` the call instead raises `AttributeError` before the wavelength
loop is entered, so no transform of the sequence ever executes. -/
theorem dummy_psf_broadband_no_transform_runs (lambdas : ℕ) :
    dummy_psf_broadband (gen_rand_comp_array 8 8) 8 4 lambdas []
        ["FFTW_MEASURE"] 0 0 1 =
      Except.error (PyError.attributeError
        "DFT object has no attribute output_array") :=
  rfl

/-- C8: every plan factory returns a `DFT` wrapper whose only attribute
is `plan`; calling a `DFT` instance raises `TypeError` and accessing
`input_array` or `output_array` on it raises `AttributeError` — nothing
is forwarded to the wrapped plan. -/
theorem dft_wrapper_not_forwarding :
    (∀ (shape : ℕ × ℕ) (flags : List String),
        (create_complex_plan shape flags).attrNames = ["plan"] ∧
        (create_real_plan shape flags).attrNames = ["plan"] ∧
        (create_real_plan_backward shape flags).attrNames = ["plan"]) ∧
    (∀ (d : DFT) (x : NDArray),
        d.call x =
          Except.error (PyError.typeError "DFT object is not callable")) ∧
    (∀ d : DFT,
        d.getattr_input_array =
          Except.error (PyError.attributeError
            "DFT object has no attribute input_array") ∧
        d.getattr_output_array =
          Except.error (PyError.attributeError
            "DFT object has no attribute output_array")) :=
  ⟨fun _ _ => ⟨rfl, rfl, rfl⟩, fun _ _ => rfl, fun _ => ⟨rfl, rfl⟩⟩

/-- C9: the dataclass-generated `Timer.__init__` accepts exactly the
parameters `_start_time`, `incs` and `elapsed_time`; for every value
`f`, `Timer(logger=f)` raises `TypeError`, and the two tutorial entry
points that construct `Timer(logger=logger.info)` therefore raise
`TypeError` on every input. -/
theorem timer_init_rejects_logger :
    Timer.initParams = ["_start_time", "incs", "elapsed_time"] ∧
    (∀ (α : Type) (f : α),
        Timer.initKw [("logger", f)] =
          Except.error (PyError.typeError
            "Timer.__init__ got an unexpected keyword argument")) ∧
    (∀ input : String,
        pyFFTWPlayground_mainMethod input =
          RunOutcome.raises (PyError.typeError
            "Timer.__init__ got an unexpected keyword argument")) ∧
    (∀ input : String,
        pyFFTPlaygroundTutorial_mainMethod input =
          RunOutcome.raises (PyError.typeError
            "Timer.__init__ got an unexpected keyword argument")) :=
  ⟨rfl, fun _ _ => rfl, fun _ => rfl, fun _ => rfl⟩

/-- C10: the division `mtf_broad_sum /= lambdas` is unguarded: for every
`lambdas ≥ 1` the scalar divisor is nonzero and the elementwise division
is well-defined (multiplying back by `lambdas` recovers every entry),
while for `lambdas = 0` the divisor is zero and the division performed
is a division by zero (multiplying back does not recover the entries). -/
theorem division_by_lambdas_unguarded :
    (∀ lambdas : ℕ, 1 ≤ lambdas →
        ((lambdas : ℚ) ≠ 0 ∧
          ∀ entries : List ℚ,
            (mtf_broad_sum_entries_div entries lambdas).map
              (fun y => y * (lambdas : ℚ)) = entries)) ∧
    (((0 : ℕ) : ℚ) = 0 ∧
      (mtf_broad_sum_entries_div [1] 0).map
        (fun y => y * ((0 : ℕ) : ℚ)) ≠ [1]) := by
  constructor
  · intro lambdas hl
    have hq : (lambdas : ℚ) ≠ 0 := Nat.cast_ne_zero.mpr (by omega)
    refine ⟨hq, fun entries => ?_⟩
    have hpt : ∀ x : ℚ, x / (lambdas : ℚ) * (lambdas : ℚ) = x :=
      fun x => div_mul_cancel₀ x hq
    simp [mtf_broad_sum_entries_div, List.map_map, Function.comp_def, hpt]
  · exact ⟨by norm_num, by norm_num [mtf_broad_sum_entries_div]⟩

/-- Witness for C10: at `lambdas = 3` the precondition holds, the divisor
is nonzero and dividing then multiplying back recovers the entries. -/
theorem division_by_lambdas_unguarded_witness :
    1 ≤ 3 ∧ ((3 : ℕ) : ℚ) ≠ 0 ∧
    (mtf_broad_sum_entries_div [5, 7] 3).map
      (fun y => y * ((3 : ℕ) : ℚ)) = [5, 7] :=
  ⟨by decide,
    (division_by_lambdas_unguarded.1 3 (by decide)).1,
    (division_by_lambdas_unguarded.1 3 (by decide)).2 [5, 7]⟩

end PyFFTPlayground
